import Mathlib

/-
Formal model of the Ghost Identity Protection repository
(dhairyasaigal/ghost_Identity).

The repository ships a React frontend (components such as ActionPolicies,
AdminLogin, the ApiService client) together with design documents for a
Flask backend whose Trust & Delivery subsystem (HashChainStore, AuditLog,
TemplateRegistry, DeliveryEngine) is described in the specification but
whose Python sources are not part of the checked-in tree.  Frontend
behaviour below is translated directly from the JavaScript sources;
backend behaviour is modelled from the specification text, and each such
definition says so in its doc comment.
-/

/- ===================== Hash chain (spec 4.1, 4.2) ===================== -/

/-- Modelled from the spec: a stored hash-chain record.  `payload` is the
canonical serialization of all non-hash fields of an AuditEntry (stored
verbatim, raw bytes), `entryHash` the stored link hash. -/
structure ChainEntry where
  payload : List Nat
  entryHash : List Nat
deriving DecidableEq

/-- Modelled from the spec: the fixed sentinel standing for `prev_hash` of
the first entry in a chain. -/
def sentinelHash : List Nat := []

/-- Modelled from the spec: result of `verifyRange` / `verify`. -/
structure VerificationResult where
  ok : Bool
  firstCorruptSequence : Option Nat
deriving DecidableEq

/-- Hash of the last entry of the chain, or the sentinel for an empty
chain. -/
def lastHash (chain : List ChainEntry) : List Nat :=
  match chain.getLast? with
  | none => sentinelHash
  | some e => e.entryHash

/-- Modelled from the spec: `HashChainStore.append(prevHash, payloadBytes)`
computes `entryHash = H(prevHash ‖ payloadBytes)` and appends atomically.
`H` is the collision-resistant hash, kept abstract. -/
def chainAppend (H : List Nat → List Nat → List Nat)
    (chain : List ChainEntry) (p : List Nat) : List ChainEntry :=
  chain ++ [{ payload := p, entryHash := H (lastHash chain) p }]

/-- The chain obtained from a sequence of `append` calls starting from the
empty chain. -/
def buildChain (H : List Nat → List Nat → List Nat)
    (ps : List (List Nat)) : List ChainEntry :=
  ps.foldl (chainAppend H) []

/-- Recursive characterization of a well-formed chain segment whose first
entry links to `prev`; used to reason about `buildChain`. -/
def buildFrom (H : List Nat → List Nat → List Nat)
    (prev : List Nat) : List (List Nat) → List ChainEntry
  | [] => []
  | p :: ps => { payload := p, entryHash := H prev p } :: buildFrom H (H prev p) ps

/-- Modelled from the spec: `verifyRange` recomputes each link hash from
the previous hash and the stored payload, compares it with the stored
`entryHash`, and stops at the first mismatch, reporting that sequence
number (sequences are 1-based). -/
def verifyFrom (H : List Nat → List Nat → List Nat)
    (prev : List Nat) (seq : Nat) : List ChainEntry → VerificationResult
  | [] => { ok := true, firstCorruptSequence := none }
  | e :: rest =>
    if e.entryHash = H prev e.payload then verifyFrom H e.entryHash (seq + 1) rest
    else { ok := false, firstCorruptSequence := some seq }

/-- Modelled from the spec: `verify` over the full range of a chain. -/
def verifyChain (H : List Nat → List Nat → List Nat)
    (chain : List ChainEntry) : VerificationResult :=
  verifyFrom H sentinelHash 1 chain

/-- An out-of-band single-field mutation at index `i` (0-based): the stored
record differs from the original in its payload only, or in its stored
`entryHash` only. -/
def singleMutationAt (chain : List ChainEntry) (i : Nat) (e' : ChainEntry) : Bool :=
  match chain[i]? with
  | none => false
  | some e =>
    (e'.payload != e.payload && e'.entryHash == e.entryHash) ||
    (e'.payload == e.payload && e'.entryHash != e.entryHash)

/-- A concrete injective model hash, standing in for the collision-resistant
256-bit hash `H` (for an ideal hash, distinct inputs give distinct outputs). -/
def modelHash (prev p : List Nat) : List Nat :=
  prev.length :: (prev ++ p)

/- ===================== AuditLog public interface (spec 4.2, 6) ===================== -/

/-- Modelled from the spec: the operations the audit trail exposes to
collaborators — `append(entry)`, `verify(subject_id)` and cursor-based
`query(filters)`.  No update or delete operation exists. -/
inductive AuditOp where
  | append (payload : List Nat)
  | verifyOp
  | queryOp (cursor : Nat)

/-- Modelled from the spec: the effect of one public operation on the
stored chain; `verify` and `query` are read-only. -/
def auditStep (H : List Nat → List Nat → List Nat)
    (chain : List ChainEntry) : AuditOp → List ChainEntry
  | AuditOp.append p => chainAppend H chain p
  | AuditOp.verifyOp => chain
  | AuditOp.queryOp _ => chain

/-- The chain after a sequence of public audit-trail operations. -/
def runAuditOps (H : List Nat → List Nat → List Nat)
    (chain : List ChainEntry) (ops : List AuditOp) : List ChainEntry :=
  ops.foldl (auditStep H) chain

/- ===================== DeliveryJob / DeliveryEngine (spec 3, 4.4) ===================== -/

/-- Modelled from the spec: DeliveryJob status state machine; terminal
states are `delivered` and `expired`. -/
inductive JobStatus where
  | pending
  | sent
  | delivered
  | failed
  | retry
  | expired
deriving DecidableEq, BEq

/-- Modelled from the spec: a status is terminal when no further automatic
transition occurs from it. -/
def JobStatus.isTerminal : JobStatus → Bool
  | JobStatus.delivered => true
  | JobStatus.expired => true
  | _ => false

/-- Modelled from the spec: a DeliveryJob record.  `nextAttemptAt` and the
timestamps are in abstract clock ticks. -/
structure DeliveryJob where
  id : Nat
  policyId : Nat
  platform : String
  method : String
  renderedPayload : String
  idempotencyKey : String
  status : JobStatus
  attemptCount : Nat
  lastError : String
  nextAttemptAt : Nat
deriving DecidableEq

/-- Modelled from the spec: `idempotency_key = H(policy_id ‖ platform ‖
method ‖ renderedPayloadHash)`; the hash is idealized as an injective
delimited encoding. -/
def idempotencyKey (policyId : Nat) (platform method payload : String) : String :=
  toString policyId ++ "|" ++ platform ++ "|" ++ method ++ "|" ++ payload

/-- Modelled from the spec: the job store of the DeliveryEngine plus the audit
event types it has written. -/
structure EngineState where
  jobs : List DeliveryJob
  nextId : Nat
  auditEvents : List String
deriving DecidableEq

/-- Modelled from the spec: `submit` deduplicates by `idempotency_key`; if
an active (non-terminal) job with the same key exists it is returned
unchanged, otherwise a new job is persisted in `pending` and a
`notification_queued` audit entry is written. -/
def submit (st : EngineState) (policyId : Nat)
    (platform method payload : String) : DeliveryJob × EngineState :=
  let key := idempotencyKey policyId platform method payload
  match st.jobs.find? (fun j => j.idempotencyKey == key && !j.status.isTerminal) with
  | some j => (j, st)
  | none =>
    let j : DeliveryJob :=
      { id := st.nextId, policyId := policyId, platform := platform, method := method,
        renderedPayload := payload, idempotencyKey := key, status := JobStatus.pending,
        attemptCount := 0, lastError := "", nextAttemptAt := 0 }
    (j, { jobs := st.jobs ++ [j], nextId := st.nextId + 1,
          auditEvents := st.auditEvents ++ ["notification_queued"] })

/-- Modelled from the spec: retry configuration - backoff base, backoff
cap, and the maximum number of delivery attempts. -/
structure RetryConfig where
  base : Nat
  cap : Nat
  maxAttempts : Nat
deriving DecidableEq

/-- Modelled from the spec: the backoff delay `min(cap, base * 2 ^
attempt_count)`. -/
def backoffDelay (cfg : RetryConfig) (attemptCount : Nat) : Nat :=
  min cfg.cap (cfg.base * 2 ^ attemptCount)

/-- Modelled from the spec: `attempt` on transport error - increments
`attempt_count`; below `maxAttempts` the job moves to `retry` with
`next_attempt_at = now + min(cap, base * 2 ^ attempt_count) + jitter`
(jitter may be negative); otherwise it moves to the terminal state
`expired`. -/
def attemptFail (cfg : RetryConfig) (now : Nat) (jitter : Int)
    (errMsg : String) (job : DeliveryJob) : DeliveryJob :=
  if job.attemptCount + 1 < cfg.maxAttempts then
    { job with
      attemptCount := job.attemptCount + 1,
      status := JobStatus.retry,
      lastError := errMsg,
      nextAttemptAt :=
        ((now : Int) + (backoffDelay cfg (job.attemptCount + 1) : Int) + jitter).toNat }
  else
    { job with
      attemptCount := job.attemptCount + 1,
      status := JobStatus.expired,
      lastError := errMsg }

/-- Modelled from the spec: the RetrySweeper re-enqueues exactly the jobs
in `retry` state whose `next_attempt_at` has come due. -/
def sweeperDue (now : Nat) (job : DeliveryJob) : Prop :=
  job.status = JobStatus.retry ∧ job.nextAttemptAt ≤ now

instance (now : Nat) (job : DeliveryJob) : Decidable (sweeperDue now job) := by
  unfold sweeperDue
  infer_instance

/- ===================== Error propagation (spec 7) ===================== -/

/-- Modelled from the spec: availability of the audit/job persistence
store during an operation. -/
inductive StoreOutcome where
  | available
  | unavailable
deriving DecidableEq

/-- Modelled from the spec: outcome of one transport dispatch
(email/api/webhook/form). -/
inductive TransportOutcome where
  | delivered
  | transportFailed (msg : String)
  | transportTimedOut
deriving DecidableEq

/-- Modelled from the spec error taxonomy: the errors the delivery engine
could in principle raise to a caller. -/
inductive EngineError where
  | storeUnavailable
  | transportError (msg : String)
deriving DecidableEq

/-- Modelled from the spec: `submit` persists the job and its audit entry;
if the store cannot durably commit, `StoreUnavailable` propagates
immediately and synchronously to the caller. -/
def engineSubmit (store : StoreOutcome) (st : EngineState) (policyId : Nat)
    (platform method payload : String) :
    Except EngineError (DeliveryJob × EngineState) :=
  match store with
  | StoreOutcome.unavailable => Except.error EngineError.storeUnavailable
  | StoreOutcome.available => Except.ok (submit st policyId platform method payload)

/-- Modelled from the spec: one worker attempt.  A transport success moves
the job to `sent`; a transport failure or timeout is absorbed into the
retry state machine (`attemptFail`) and is never re-raised; a store
failure while writing the audit entry of the attempt is a hard failure. -/
def engineAttempt (cfg : RetryConfig) (store : StoreOutcome)
    (t : TransportOutcome) (now : Nat) (jitter : Int) (job : DeliveryJob) :
    Except EngineError DeliveryJob :=
  match store with
  | StoreOutcome.unavailable => Except.error EngineError.storeUnavailable
  | StoreOutcome.available =>
    match t with
    | TransportOutcome.delivered =>
      Except.ok { job with status := JobStatus.sent }
    | TransportOutcome.transportFailed m =>
      Except.ok (attemptFail cfg now jitter m job)
    | TransportOutcome.transportTimedOut =>
      Except.ok (attemptFail cfg now jitter "timeout" job)

/-- The retry loop: a sequence of attempts, each with its transport
outcome, clock time and jitter draw. -/
def processAttempts (cfg : RetryConfig) (store : StoreOutcome) (job : DeliveryJob) :
    List (TransportOutcome × Nat × Int) → Except EngineError DeliveryJob
  | [] => Except.ok job
  | (t, now, jit) :: rest =>
    match engineAttempt cfg store t now jit job with
    | Except.error e => Except.error e
    | Except.ok j => processAttempts cfg store j rest

/- ============ Frontend: ActionPolicies component (src/unnamed/part_000) ============ -/

/-- A registered digital asset, as held in the `assets` state of the
ActionPolicies component. -/
structure MockAsset where
  id : Nat
  platformName : String
  assetType : String
  accountIdentifier : String
deriving DecidableEq

/-- The built-in asset list of the ActionPolicies component. -/
def defaultAssets : List MockAsset :=
  [{ id := 1, platformName := "Gmail", assetType := "email",
     accountIdentifier := "user@gmail.com" },
   { id := 2, platformName := "Facebook", assetType := "social_media",
     accountIdentifier := "facebook.com/user" },
   { id := 3, platformName := "Chase Bank", assetType := "bank",
     accountIdentifier := "****1234" }]

/-- A policy object as built by the `handleSubmit` of the component. -/
structure Policy where
  id : Nat
  assetId : Nat
  actionType : String
  naturalLanguagePolicy : String
  specificInstructions : String
  conditions : String
  priority : Nat
  platformName : String
  assetType : String
  accountIdentifier : String
  status : String
  createdAt : String
deriving DecidableEq

/-- The `actionText` lookup object in `generateMockNotification`; indexing
with a key that is not present yields JavaScript `undefined`. -/
def actionText : String → Option String
  | "delete" => some "permanently delete"
  | "memorialize" => some "memorialize"
  | "transfer" => some "transfer ownership of"
  | "lock" => some "lock and secure"
  | _ => none

/-- JavaScript template-literal stringification: `undefined` interpolates
as the text "undefined". -/
def jsStr : Option String → String
  | none => "undefined"
  | some s => s

/-- `s.charAt(0).toUpperCase() + s.slice(1)` from the component. -/
def capitalizeFirst (s : String) : String :=
  match s.data with
  | [] => ""
  | c :: cs => String.mk (c.toUpper :: cs)

def replaceFirstChar : List Char → Char → Char → List Char
  | [], _, _ => []
  | c :: cs, pat, rep =>
    if c = pat then rep :: cs else c :: replaceFirstChar cs pat rep

/-- JavaScript `String.prototype.replace` with a one-character string
pattern replaces only the first occurrence. -/
def jsReplaceOnce (s : String) (pat rep : Char) : String :=
  String.mk (replaceFirstChar s.data pat rep)

/-- The notification object returned by `generateMockNotification`. -/
structure MockNotification where
  subject : String
  body : String
  requiredDocuments : List String
deriving DecidableEq

/-- `generateMockNotification(policy, asset)` from ActionPolicies,
transcribed string for string (template-literal line breaks are `\n`). -/
def generateMockNotification (policy : Policy) (asset : MockAsset) : MockNotification :=
  { subject := "Death Notification - Request to " ++
      jsStr (actionText policy.actionType) ++ " account",
    body :=
      "Dear " ++ asset.platformName ++ " Support Team,\n\n" ++
      "I am writing to notify you of the death of the account holder and request that you " ++
      jsStr (actionText policy.actionType) ++ " the following account:\n\n" ++
      "Account Information:\n" ++
      "- Platform: " ++ asset.platformName ++ "\n" ++
      "- Account Identifier: " ++ asset.accountIdentifier ++ "\n" ++
      "- Account Type: " ++ jsReplaceOnce asset.assetType '_' ' ' ++ "\n\n" ++
      "Requested Action: " ++ capitalizeFirst policy.actionType ++ "\n\n" ++
      (if policy.specificInstructions = "" then ""
       else "Special Instructions: " ++ policy.specificInstructions) ++ "\n\n" ++
      (if policy.conditions = "" then ""
       else "Conditions: " ++ policy.conditions) ++ "\n\n" ++
      "Please find attached the death certificate and any required documentation. " ++
      "If you need additional information or documentation, please contact me at " ++
      "the information provided below.\n\n" ++
      "Thank you for your assistance during this difficult time.\n\n" ++
      "Sincerely,\n[Trusted Contact Name]\n[Contact Information]",
    requiredDocuments := ["Death Certificate", "Proof of Authority", "Government ID"] }

/-- Modelled from the spec: the hash of a rendered payload used inside the
idempotency key, idealized as an injective encoding of the payload. -/
def renderedPayloadHash (n : MockNotification) : String :=
  n.subject ++ "\n" ++ n.body

/-- Modelled from the spec: the idempotency key of the notification a
policy renders for an asset. -/
def renderIdempotencyKey (p : Policy) (a : MockAsset) (method : String) : String :=
  idempotencyKey p.id a.platformName method
    (renderedPayloadHash (generateMockNotification p a))

/-- The new-policy form state validated by the
`validatePolicy` of the component (the `assetId` select holds a string, empty when nothing
is chosen). -/
structure NewPolicyForm where
  assetId : String
  actionType : String
  naturalLanguagePolicy : String
  specificInstructions : String
  conditions : String
  priority : Nat
deriving DecidableEq

/-- JavaScript `String.prototype.trim`: strips leading and trailing
whitespace. -/
def jsTrim (s : String) : String :=
  String.mk (((s.data.dropWhile Char.isWhitespace).reverse.dropWhile
    Char.isWhitespace).reverse)

/-- `validatePolicy()` from ActionPolicies: collects every failing check
into one list (it does not stop at the first error). -/
def validatePolicy (p : NewPolicyForm) : List String :=
  (if p.assetId = "" then ["Please select an asset"] else []) ++
  (if jsTrim p.naturalLanguagePolicy = "" then ["Please provide a policy description"] else [])

/- ============ TemplateRegistry rendering (spec 4.3) ============ -/

/-- A template body split into literal text and named placeholders. -/
inductive TemplatePart where
  | lit (s : String)
  | field (name : String)
deriving DecidableEq

/-- Context lookup: the value bound to a placeholder name, or the empty
string when the name is absent. -/
def lookupCtx (ctx : List (String × String)) (k : String) : String :=
  match ctx.find? (fun kv => kv.1 == k) with
  | some kv => kv.2
  | none => ""

/-- Modelled from the spec: the required fields that do not resolve to a
non-empty value in the context, all of them, in template order. -/
def missingFields (required : List String) (ctx : List (String × String)) : List String :=
  required.filter (fun f => lookupCtx ctx f == "")

/-- Substitution of placeholders from the context. -/
def renderParts (parts : List TemplatePart) (ctx : List (String × String)) : String :=
  parts.foldl
    (fun s part =>
      s ++ match part with
      | TemplatePart.lit t => t
      | TemplatePart.field n => lookupCtx ctx n) ""

/-- Modelled from the spec: `TemplateRegistry.render` substitutes
placeholders from the context and fails with `MissingRequiredField`
listing every absent required field (batch-reported, not fail-on-first)
when the context does not satisfy `required_fields`. -/
def renderTemplate (required : List String) (parts : List TemplatePart)
    (ctx : List (String × String)) : Except (List String) String :=
  if missingFields required ctx = [] then Except.ok (renderParts parts ctx)
  else Except.error (missingFields required ctx)

/- ============ Preview execution (src/unnamed/part_000, lines 54-98) ============ -/

/-- A thrown JavaScript runtime error. -/
inductive JsError where
  | typeError (msg : String)
deriving DecidableEq

/-- `assets.find(asset => asset.id === policy.assetId)`. -/
def findAsset (assets : List MockAsset) (assetId : Nat) : Option MockAsset :=
  assets.find? (fun a => a.id == assetId)

/-- `generateMockNotification` as actually invoked by
`previewPolicyExecution`: when `assets.find` produced `undefined`, the
first dereference `asset.platformName` throws a TypeError. -/
def generateMockNotificationJs (policy : Policy) :
    Option MockAsset → Except JsError MockNotification
  | none => Except.error (JsError.typeError "Cannot read properties of undefined")
  | some a => Except.ok (generateMockNotification policy a)

/-- The preview-modal state set by `previewPolicyExecution`. -/
structure PreviewState where
  previewPolicy : Option (Policy × Option MockAsset × MockNotification)
  showPreview : Bool
deriving DecidableEq

/-- `previewPolicyExecution(policy)` from ActionPolicies: looks the asset
up, generates the notification, and opens the preview modal; if the
notification generator throws, the state is never set. -/
def previewPolicyExecution (assets : List MockAsset) (policy : Policy) :
    Except JsError PreviewState :=
  match generateMockNotificationJs policy (findAsset assets policy.assetId) with
  | Except.error e => Except.error e
  | Except.ok n =>
    Except.ok { previewPolicy := some (policy, findAsset assets policy.assetId, n),
                showPreview := true }

/- ============ ApiService.request (src/unnamed/part_003, lines 216-262) ============ -/

/-- The parsed response body as the client sees it; a JavaScript falsy
(absent or empty) field is the empty string, matching the `||` chains in
the source. -/
structure RespData where
  errorField : String
  messageField : String
deriving DecidableEq

/-- Outcome of the underlying `fetch` call: either the promise rejects
(network failure) or an HTTP response arrives with its ok flag, status,
content type and parsed body. -/
inductive FetchOutcome where
  | networkFailure (message : String)
  | httpResponse (ok : Bool) (status : Nat) (jsonContent : Bool)
      (jsonData : RespData) (textBody : String)
deriving DecidableEq

/-- The result of `ApiService.request`: the parsed data on success, or the
thrown `ApiError` with its `message`, `status`, `data` and, for wrapped
network errors, the original error. -/
inductive ReqOutcome where
  | success (data : RespData)
  | apiFailure (message : String) (status : Nat) (data : Option RespData)
      (originalError : Option String)
deriving DecidableEq

/-- the `data.error`, `data.message`, `HTTP <status>` fallback chain from the source. -/
def apiErrorMessage (data : RespData) (status : Nat) : String :=
  if data.errorField ≠ "" then data.errorField
  else if data.messageField ≠ "" then data.messageField
  else "HTTP " ++ toString status

/-- `ApiService.request` from the api service module: parses the body
(JSON content yields the JSON data, anything else is wrapped as
`{ message: text }`), throws `ApiError(message, status, data)` on a
non-ok response, returns the data on an ok response, and wraps a fetch
rejection as an `ApiError` whose message falls back to the fixed network-error text, with status 0 and the original error attached. -/
def apiRequest : FetchOutcome → ReqOutcome
  | FetchOutcome.networkFailure msg =>
    ReqOutcome.apiFailure (if msg ≠ "" then msg else "Network error occurred") 0
      none (some msg)
  | FetchOutcome.httpResponse ok status jsonContent jsonData textBody =>
    let data := if jsonContent then jsonData
      else { errorField := "", messageField := textBody }
    if ok then ReqOutcome.success data
    else ReqOutcome.apiFailure (apiErrorMessage data status) status (some data) none

/- ============ AdminLogin.handleSubmit (src/unnamed/part_003, lines 24-48) ============ -/

/-- The observable effects `handleSubmit` can perform: localStorage
writes, navigation, the error banner, and the loading flag. -/
inductive AdminEffect where
  | setItem (key value : String)
  | navigate (path : String)
  | setError (msg : String)
  | setLoading (flag : Bool)
deriving DecidableEq

/-- The credential-error banner text from AdminLogin. -/
def adminErrorText : String :=
  "Invalid administrator credentials. Please check your username, password, and admin key."

/-- `AdminLogin.handleSubmit`: sets loading, clears the error, then either
stores the admin session and navigates to /admin (on the exact credential
match) or shows the error banner; finally clears loading. -/
def adminHandleSubmit (username password adminKey : String) : List AdminEffect :=
  [AdminEffect.setLoading true, AdminEffect.setError ""] ++
  (if username = "admin" ∧ password = "admin123" ∧ adminKey = "GHOST_ADMIN_2024" then
    [AdminEffect.setItem "userRole" "admin",
     AdminEffect.setItem "adminAuthenticated" "true",
     AdminEffect.navigate "/admin"]
   else [AdminEffect.setError adminErrorText]) ++
  [AdminEffect.setLoading false]

/- ===================== Theorems ===================== -/

theorem modelHash_injective (p₁ d₁ p₂ d₂ : List Nat)
    (h : modelHash p₁ d₁ = modelHash p₂ d₂) : p₁ = p₂ ∧ d₁ = d₂ := by
  simp only [modelHash, List.cons.injEq] at h
  exact List.append_inj h.2 h.1

theorem lastHash_concat (chain : List ChainEntry) (e : ChainEntry) :
    lastHash (chain ++ [e]) = e.entryHash := by
  simp [lastHash]

theorem foldl_chainAppend (H : List Nat → List Nat → List Nat)
    (ps : List (List Nat)) (chain : List ChainEntry) :
    ps.foldl (chainAppend H) chain = chain ++ buildFrom H (lastHash chain) ps := by
  induction ps generalizing chain with
  | nil => simp [buildFrom]
  | cons p ps ih =>
    simp only [List.foldl_cons, ih, buildFrom]
    rw [chainAppend]
    rw [lastHash_concat]
    simp

theorem buildChain_eq_buildFrom (H : List Nat → List Nat → List Nat)
    (ps : List (List Nat)) :
    buildChain H ps = buildFrom H sentinelHash ps := by
  rw [buildChain, foldl_chainAppend]
  simp [lastHash]

theorem verifyFrom_buildFrom (H : List Nat → List Nat → List Nat)
    (ps : List (List Nat)) (prev : List Nat) (seq : Nat) :
    verifyFrom H prev seq (buildFrom H prev ps) =
      { ok := true, firstCorruptSequence := none } := by
  induction ps generalizing prev seq with
  | nil => rfl
  | cons p ps ih => simp [buildFrom, verifyFrom, ih]

theorem verifyFrom_buildFrom_mutated (H : List Nat → List Nat → List Nat)
    (hinj : ∀ p₁ d₁ p₂ d₂, H p₁ d₁ = H p₂ d₂ → p₁ = p₂ ∧ d₁ = d₂)
    (ps : List (List Nat)) (prev : List Nat) (seq : Nat) (i : Nat) (e' : ChainEntry)
    (hm : singleMutationAt (buildFrom H prev ps) i e' = true) :
    verifyFrom H prev seq ((buildFrom H prev ps).set i e') =
      { ok := false, firstCorruptSequence := some (seq + i) } := by
  induction ps generalizing prev seq i with
  | nil => simp [buildFrom, singleMutationAt] at hm
  | cons p ps ih =>
    cases i with
    | zero =>
      simp only [buildFrom, singleMutationAt, List.getElem?_cons_zero,
        Bool.or_eq_true, Bool.and_eq_true, bne_iff_ne, ne_eq, beq_iff_eq] at hm
      simp only [buildFrom, List.set]
      rw [verifyFrom]
      rcases hm with ⟨hpay, hhash⟩ | ⟨hpay, hhash⟩
      · have hne : ¬ e'.entryHash = H prev e'.payload := by
          intro hc
          rw [hhash] at hc
          exact hpay ((hinj _ _ _ _ hc).2).symm
        rw [if_neg hne]
        simp
      · have hne : ¬ e'.entryHash = H prev e'.payload := by
          intro hc
          rw [hpay] at hc
          exact hhash hc
        rw [if_neg hne]
        simp
    | succ i =>
      simp only [buildFrom, singleMutationAt, List.getElem?_cons_succ] at hm
      simp only [buildFrom, List.set]
      rw [verifyFrom, if_pos rfl]
      have harith : seq + 1 + i = seq + (i + 1) := by omega
      rw [ih (H prev p) (seq + 1) i (by simpa [singleMutationAt] using hm), harith]

/-- C1: for every sequence of `append` calls forming one audit chain,
`verify` over the full range reports ok with no corrupt sequence when no
stored entry was mutated out-of-band, and for any single out-of-band
mutation of a stored `entry_hash` or payload (index `i`, 0-based), `verify`
reports failure at the smallest affected 1-based sequence number `i + 1`
and stops there.  `H` is any collision-free hash. -/
theorem hashchain_append_verify_detects_single_mutation
    (H : List Nat → List Nat → List Nat)
    (hinj : ∀ p₁ d₁ p₂ d₂, H p₁ d₁ = H p₂ d₂ → p₁ = p₂ ∧ d₁ = d₂)
    (ps : List (List Nat)) :
    verifyChain H (buildChain H ps) = { ok := true, firstCorruptSequence := none } ∧
    ∀ i e', singleMutationAt (buildChain H ps) i e' = true →
      verifyChain H ((buildChain H ps).set i e') =
        { ok := false, firstCorruptSequence := some (i + 1) } := by
  constructor
  · rw [verifyChain, buildChain_eq_buildFrom, verifyFrom_buildFrom]
  · intro i e' hm
    rw [buildChain_eq_buildFrom] at hm ⊢
    rw [verifyChain, verifyFrom_buildFrom_mutated H hinj ps sentinelHash 1 i e' hm]
    simp [Nat.add_comm]

/-- Witness for C1 (Scenario A): a 3-entry chain where the payload of entry 2
mutated out-of-band is reported corrupt at sequence 2. -/
theorem hashchain_scenario_a :
    verifyChain modelHash ((buildChain modelHash [[1], [2], [3]]).set 1
        { payload := [9], entryHash := [2, 0, 1, 2] }) =
      { ok := false, firstCorruptSequence := some 2 } :=
  (hashchain_append_verify_detects_single_mutation modelHash modelHash_injective
    [[1], [2], [3]]).2 1 { payload := [9], entryHash := [2, 0, 1, 2] } (by decide)

theorem auditStep_extends (H : List Nat → List Nat → List Nat)
    (chain : List ChainEntry) (op : AuditOp) :
    ∃ t, auditStep H chain op = chain ++ t := by
  cases op with
  | append p => exact ⟨_, rfl⟩
  | verifyOp => exact ⟨[], by simp [auditStep]⟩
  | queryOp c => exact ⟨[], by simp [auditStep]⟩

theorem runAuditOps_extends (H : List Nat → List Nat → List Nat)
    (chain : List ChainEntry) (ops : List AuditOp) :
    ∃ t, runAuditOps H chain ops = chain ++ t := by
  induction ops generalizing chain with
  | nil => exact ⟨[], by simp [runAuditOps]⟩
  | cons op ops ih =>
    obtain ⟨s, hs⟩ := auditStep_extends H chain op
    obtain ⟨t, ht⟩ := ih (auditStep H chain op)
    exact ⟨s ++ t, by rw [runAuditOps, List.foldl_cons, ← runAuditOps, ht, hs,
      List.append_assoc]⟩

/-- C6: audit entries are immutable and undeletable — after any sequence of
public audit-trail operations, the prior chain is an unchanged initial
segment of the resulting chain: every entry present before is still present, unchanged and at its
original position, and nothing is removed. -/
theorem audit_trail_append_only (H : List Nat → List Nat → List Nat)
    (chain : List ChainEntry) (ops : List AuditOp) :
    (∃ t, runAuditOps H chain ops = chain ++ t) ∧
    (∀ i, i < chain.length → (runAuditOps H chain ops)[i]? = chain[i]?) ∧
    chain.length ≤ (runAuditOps H chain ops).length := by
  obtain ⟨t, ht⟩ := runAuditOps_extends H chain ops
  refine ⟨⟨t, ht⟩, ?_, ?_⟩
  · intro i hi
    rw [ht, List.getElem?_append, if_pos hi]
  · rw [ht]
    simp

/-- Witness for C6: a one-entry chain after an `append`, a `verify` and a
`query` still holds its original entry, unchanged, at position 0. -/
theorem audit_trail_append_only_witness :
    (∃ t, runAuditOps modelHash [{ payload := [7], entryHash := [0, 7] }]
        [AuditOp.append [5], AuditOp.verifyOp, AuditOp.queryOp 0] =
        [{ payload := [7], entryHash := [0, 7] }] ++ t) ∧
    (runAuditOps modelHash [{ payload := [7], entryHash := [0, 7] }]
        [AuditOp.append [5], AuditOp.verifyOp, AuditOp.queryOp 0])[0]? =
      some { payload := [7], entryHash := [0, 7] } :=
  ⟨(audit_trail_append_only modelHash [{ payload := [7], entryHash := [0, 7] }]
      [AuditOp.append [5], AuditOp.verifyOp, AuditOp.queryOp 0]).1,
   ((audit_trail_append_only modelHash [{ payload := [7], entryHash := [0, 7] }]
      [AuditOp.append [5], AuditOp.verifyOp, AuditOp.queryOp 0]).2.1 0
      (by decide)).trans (by decide)⟩

theorem find?_append_none {α : Type} (p : α → Bool) (l₁ l₂ : List α)
    (h : l₁.find? p = none) : (l₁ ++ l₂).find? p = l₂.find? p := by
  induction l₁ with
  | nil => rfl
  | cons a l ih =>
    rw [List.find?_eq_none] at h
    have ha : p a = false := by
      have := h a (by simp)
      simp at this
      exact this
    rw [List.cons_append, List.find?, ha]
    exact ih (by rw [List.find?_eq_none]; intro x hx; exact h x (by simp [hx]))

/-- C2: two `submit` calls with arguments producing the same idempotency
key, starting from a store holding no job for that key, return the same
job id, leave the store unchanged on the second call, and leave exactly
one job for that key in the store. -/
theorem submit_idempotent_same_key (st : EngineState) (policyId : Nat)
    (platform method payload : String)
    (h : ∀ j, j ∈ st.jobs → j.idempotencyKey ≠ idempotencyKey policyId platform method payload) :
    (submit (submit st policyId platform method payload).2 policyId platform method payload).1.id =
      (submit st policyId platform method payload).1.id ∧
    (submit (submit st policyId platform method payload).2 policyId platform method payload).2 =
      (submit st policyId platform method payload).2 ∧
    ((submit (submit st policyId platform method payload).2 policyId platform method payload).2.jobs.filter
        (fun j => j.idempotencyKey == idempotencyKey policyId platform method payload)).length = 1 := by
  have hnone : st.jobs.find?
      (fun j => j.idempotencyKey == idempotencyKey policyId platform method payload
        && !j.status.isTerminal) = none := by
    rw [List.find?_eq_none]
    intro j hj
    simp only [Bool.and_eq_true, beq_iff_eq, Bool.not_eq_true']
    intro hc
    exact absurd hc.1 (h j hj)
  have hfilter : st.jobs.filter
      (fun j => j.idempotencyKey == idempotencyKey policyId platform method payload) = [] := by
    rw [List.filter_eq_nil_iff]
    intro j hj
    simp only [beq_iff_eq]
    exact h j hj
  have h1 : submit st policyId platform method payload =
      ({ id := st.nextId, policyId := policyId, platform := platform, method := method,
         renderedPayload := payload,
         idempotencyKey := idempotencyKey policyId platform method payload,
         status := JobStatus.pending, attemptCount := 0, lastError := "", nextAttemptAt := 0 },
       { jobs := st.jobs ++
           [{ id := st.nextId, policyId := policyId, platform := platform, method := method,
              renderedPayload := payload,
              idempotencyKey := idempotencyKey policyId platform method payload,
              status := JobStatus.pending, attemptCount := 0, lastError := "", nextAttemptAt := 0 }],
         nextId := st.nextId + 1,
         auditEvents := st.auditEvents ++ ["notification_queued"] }) := by
    simp only [submit, hnone]
  have h2 : (st.jobs ++
      [{ id := st.nextId, policyId := policyId, platform := platform, method := method,
         renderedPayload := payload,
         idempotencyKey := idempotencyKey policyId platform method payload,
         status := JobStatus.pending, attemptCount := 0, lastError := "",
         nextAttemptAt := 0 : DeliveryJob }]).find?
      (fun j => j.idempotencyKey == idempotencyKey policyId platform method payload
        && !j.status.isTerminal) =
      some { id := st.nextId, policyId := policyId, platform := platform, method := method,
             renderedPayload := payload,
             idempotencyKey := idempotencyKey policyId platform method payload,
             status := JobStatus.pending, attemptCount := 0, lastError := "",
             nextAttemptAt := 0 } := by
    rw [find?_append_none _ _ _ hnone]
    simp [List.find?, JobStatus.isTerminal]
  rw [h1]
  simp only [submit, h2]
  refine ⟨trivial, trivial, ?_⟩
  simp [List.filter_append, hfilter]

/-- Witness for C2 (Scenario D): two identical submissions against an empty
store yield the same job id and a store with exactly one job for the key. -/
theorem submit_idempotent_witness :
    (submit (submit { jobs := [], nextId := 0, auditEvents := [] } 1 "Gmail" "email" "payload").2
        1 "Gmail" "email" "payload").1.id =
      (submit { jobs := [], nextId := 0, auditEvents := [] } 1 "Gmail" "email" "payload").1.id ∧
    (submit (submit { jobs := [], nextId := 0, auditEvents := [] } 1 "Gmail" "email" "payload").2
        1 "Gmail" "email" "payload").2 =
      (submit { jobs := [], nextId := 0, auditEvents := [] } 1 "Gmail" "email" "payload").2 ∧
    ((submit (submit { jobs := [], nextId := 0, auditEvents := [] } 1 "Gmail" "email" "payload").2
        1 "Gmail" "email" "payload").2.jobs.filter
        (fun j => j.idempotencyKey == idempotencyKey 1 "Gmail" "email" "payload")).length = 1 :=
  submit_idempotent_same_key { jobs := [], nextId := 0, auditEvents := [] }
    1 "Gmail" "email" "payload" (by intro j hj; simp at hj)

theorem attemptFail_attemptCount (cfg : RetryConfig) (now : Nat) (jitter : Int)
    (errMsg : String) (job : DeliveryJob) :
    (attemptFail cfg now jitter errMsg job).attemptCount = job.attemptCount + 1 := by
  rw [attemptFail]
  by_cases h : job.attemptCount + 1 < cfg.maxAttempts
  · rw [if_pos h]
  · rw [if_neg h]

theorem attemptFail_retry (cfg : RetryConfig) (now : Nat) (jitter : Int)
    (errMsg : String) (job : DeliveryJob)
    (h : job.attemptCount + 1 < cfg.maxAttempts) :
    (attemptFail cfg now jitter errMsg job).status = JobStatus.retry ∧
    (attemptFail cfg now jitter errMsg job).nextAttemptAt =
      ((now : Int) + (backoffDelay cfg (job.attemptCount + 1) : Int) + jitter).toNat := by
  rw [attemptFail, if_pos h]
  exact ⟨rfl, rfl⟩

/-- C3: on every failed attempt `attempt_count` grows by exactly one;
below `maxAttempts` the job moves to `retry` with the backoff
formula of the spec; across two consecutive failures with the second attempt run no
earlier than the scheduled `next_attempt_at` and jitter magnitude below
the minimum backoff delay, `next_attempt_at` strictly increases; and once
`attempt_count` reaches `maxAttempts` the job is `expired` and is never
again due for the sweeper, so no further attempts occur. -/
theorem retry_backoff_monotone_and_expiry (cfg : RetryConfig) (job : DeliveryJob)
    (now₁ now₂ : Nat) (j₁ j₂ : Int) (e₁ e₂ : String) :
    ((attemptFail cfg now₁ j₁ e₁ job).attemptCount = job.attemptCount + 1) ∧
    (job.attemptCount + 1 < cfg.maxAttempts →
      (attemptFail cfg now₁ j₁ e₁ job).status = JobStatus.retry ∧
      (attemptFail cfg now₁ j₁ e₁ job).nextAttemptAt =
        ((now₁ : Int) + (backoffDelay cfg (job.attemptCount + 1) : Int) + j₁).toNat) ∧
    (job.attemptCount + 2 < cfg.maxAttempts →
      (attemptFail cfg now₁ j₁ e₁ job).nextAttemptAt ≤ now₂ →
      j₂.natAbs < min cfg.cap cfg.base →
      (attemptFail cfg now₁ j₁ e₁ job).nextAttemptAt <
        (attemptFail cfg now₂ j₂ e₂ (attemptFail cfg now₁ j₁ e₁ job)).nextAttemptAt) ∧
    (cfg.maxAttempts ≤ job.attemptCount + 1 →
      (attemptFail cfg now₁ j₁ e₁ job).status = JobStatus.expired ∧
      ∀ t, ¬ sweeperDue t (attemptFail cfg now₁ j₁ e₁ job)) := by
  refine ⟨attemptFail_attemptCount cfg now₁ j₁ e₁ job, ?_, ?_, ?_⟩
  · intro h
    exact attemptFail_retry cfg now₁ j₁ e₁ job h
  · intro h2 hdue hjit
    have h1 : job.attemptCount + 1 < cfg.maxAttempts := by omega
    have hc1 : (attemptFail cfg now₁ j₁ e₁ job).attemptCount + 1 < cfg.maxAttempts := by
      rw [attemptFail_attemptCount]
      omega
    obtain ⟨-, hn2⟩ := attemptFail_retry cfg now₂ j₂ e₂ (attemptFail cfg now₁ j₁ e₁ job) hc1
    rw [hn2, attemptFail_attemptCount]
    have hdelay : min cfg.cap cfg.base ≤ backoffDelay cfg (job.attemptCount + 1 + 1) := by
      have hone : 1 ≤ 2 ^ (job.attemptCount + 1 + 1) := Nat.one_le_two_pow
      have hbase : cfg.base ≤ cfg.base * 2 ^ (job.attemptCount + 1 + 1) := by
        calc cfg.base = cfg.base * 1 := by ring
          _ ≤ cfg.base * 2 ^ (job.attemptCount + 1 + 1) := Nat.mul_le_mul_left _ hone
      rw [backoffDelay]
      omega
    rcases Int.natAbs_eq j₂ with he | he
    · omega
    · omega
  · intro h
    rw [attemptFail, if_neg (by omega)]
    refine ⟨rfl, ?_⟩
    intro t hc
    rw [sweeperDue] at hc
    exact absurd hc.1 (by simp)

/-- Witness for C3: with base 2, cap 100, maxAttempts 4, a first failure at
time 10 moves the job to `retry` with attempt count 1, and a second failure
at time 20 (past the scheduled retry) strictly increases `next_attempt_at`;
a job already at its last allowed attempt expires and is never due again. -/
theorem retry_backoff_witness :
    ((attemptFail { base := 2, cap := 100, maxAttempts := 4 } 10 0 "err"
        { id := 0, policyId := 0, platform := "Gmail", method := "email",
          renderedPayload := "", idempotencyKey := "", status := JobStatus.pending,
          attemptCount := 0, lastError := "", nextAttemptAt := 0 }).attemptCount = 1) ∧
    ((attemptFail { base := 2, cap := 100, maxAttempts := 4 } 10 0 "err"
        { id := 0, policyId := 0, platform := "Gmail", method := "email",
          renderedPayload := "", idempotencyKey := "", status := JobStatus.pending,
          attemptCount := 0, lastError := "", nextAttemptAt := 0 }).status = JobStatus.retry) ∧
    ((attemptFail { base := 2, cap := 100, maxAttempts := 4 } 10 0 "err"
        { id := 0, policyId := 0, platform := "Gmail", method := "email",
          renderedPayload := "", idempotencyKey := "", status := JobStatus.pending,
          attemptCount := 0, lastError := "", nextAttemptAt := 0 }).nextAttemptAt <
      (attemptFail { base := 2, cap := 100, maxAttempts := 4 } 20 1 "err2"
        (attemptFail { base := 2, cap := 100, maxAttempts := 4 } 10 0 "err"
          { id := 0, policyId := 0, platform := "Gmail", method := "email",
            renderedPayload := "", idempotencyKey := "", status := JobStatus.pending,
            attemptCount := 0, lastError := "", nextAttemptAt := 0 })).nextAttemptAt) ∧
    ((attemptFail { base := 2, cap := 100, maxAttempts := 4 } 30 0 "err3"
        { id := 0, policyId := 0, platform := "Gmail", method := "email",
          renderedPayload := "", idempotencyKey := "", status := JobStatus.retry,
          attemptCount := 3, lastError := "", nextAttemptAt := 14 }).status =
        JobStatus.expired) :=
  ⟨(retry_backoff_monotone_and_expiry { base := 2, cap := 100, maxAttempts := 4 }
      { id := 0, policyId := 0, platform := "Gmail", method := "email",
        renderedPayload := "", idempotencyKey := "", status := JobStatus.pending,
        attemptCount := 0, lastError := "", nextAttemptAt := 0 } 10 20 0 1 "err" "err2").1,
   ((retry_backoff_monotone_and_expiry { base := 2, cap := 100, maxAttempts := 4 }
      { id := 0, policyId := 0, platform := "Gmail", method := "email",
        renderedPayload := "", idempotencyKey := "", status := JobStatus.pending,
        attemptCount := 0, lastError := "", nextAttemptAt := 0 } 10 20 0 1 "err" "err2").2.1
      (by decide)).1,
   (retry_backoff_monotone_and_expiry { base := 2, cap := 100, maxAttempts := 4 }
      { id := 0, policyId := 0, platform := "Gmail", method := "email",
        renderedPayload := "", idempotencyKey := "", status := JobStatus.pending,
        attemptCount := 0, lastError := "", nextAttemptAt := 0 } 10 20 0 1 "err" "err2").2.2.1
      (by decide) (by decide) (by decide),
   ((retry_backoff_monotone_and_expiry { base := 2, cap := 100, maxAttempts := 4 }
      { id := 0, policyId := 0, platform := "Gmail", method := "email",
        renderedPayload := "", idempotencyKey := "", status := JobStatus.retry,
        attemptCount := 3, lastError := "", nextAttemptAt := 14 } 30 0 0 0 "err3" "x").2.2.2
      (by decide)).1⟩

/-- C7: error propagation is asymmetric.  With the store available,
`submit` and the whole retry loop always return normally - transport
failures and timeouts never surface as errors to the caller; any error the
engine ever raises is `StoreUnavailable`, never a transport error; and
with the store unavailable, `submit` and any non-empty attempt sequence
fail immediately with `StoreUnavailable`. -/
theorem error_propagation_asymmetric (cfg : RetryConfig) (st : EngineState)
    (policyId : Nat) (platform method payload : String) (job : DeliveryJob)
    (outcomes : List (TransportOutcome × Nat × Int)) :
    (engineSubmit StoreOutcome.available st policyId platform method payload =
      Except.ok (submit st policyId platform method payload)) ∧
    (∃ j, processAttempts cfg StoreOutcome.available job outcomes = Except.ok j) ∧
    (∀ store e, processAttempts cfg store job outcomes = Except.error e →
      e = EngineError.storeUnavailable) ∧
    (engineSubmit StoreOutcome.unavailable st policyId platform method payload =
      Except.error EngineError.storeUnavailable) ∧
    (outcomes ≠ [] →
      processAttempts cfg StoreOutcome.unavailable job outcomes =
        Except.error EngineError.storeUnavailable) := by
  refine ⟨rfl, ?_, ?_, rfl, ?_⟩
  · induction outcomes generalizing job with
    | nil => exact ⟨job, rfl⟩
    | cons o rest ih =>
      obtain ⟨t, now, jit⟩ := o
      cases t with
      | delivered => exact ih _
      | transportFailed m => exact ih _
      | transportTimedOut => exact ih _
  · intro store e he
    cases store with
    | available =>
      induction outcomes generalizing job with
      | nil => exact absurd he (by rw [processAttempts]; intro hc; cases hc)
      | cons o rest ih =>
        obtain ⟨t, now, jit⟩ := o
        cases t with
        | delivered => exact ih _ he
        | transportFailed m => exact ih _ he
        | transportTimedOut => exact ih _ he
    | unavailable =>
      cases outcomes with
      | nil => exact absurd he (by rw [processAttempts]; intro hc; cases hc)
      | cons o rest =>
        obtain ⟨t, now, jit⟩ := o
        rw [processAttempts] at he
        cases he
        rfl
  · intro hne
    cases outcomes with
    | nil => exact absurd rfl hne
    | cons o rest =>
      obtain ⟨t, now, jit⟩ := o
      rfl

/-- Witness for C7: with the store up, a submit plus two transport
failures and a timeout end normally; with the store down, the same calls
fail with `StoreUnavailable`. -/
theorem error_propagation_witness :
    (∃ j, processAttempts { base := 2, cap := 100, maxAttempts := 4 }
        StoreOutcome.available
        { id := 0, policyId := 0, platform := "Gmail", method := "email",
          renderedPayload := "", idempotencyKey := "", status := JobStatus.pending,
          attemptCount := 0, lastError := "", nextAttemptAt := 0 }
        [(TransportOutcome.transportFailed "503", 10, 0),
         (TransportOutcome.transportTimedOut, 20, 0)] = Except.ok j) ∧
    processAttempts { base := 2, cap := 100, maxAttempts := 4 }
        StoreOutcome.unavailable
        { id := 0, policyId := 0, platform := "Gmail", method := "email",
          renderedPayload := "", idempotencyKey := "", status := JobStatus.pending,
          attemptCount := 0, lastError := "", nextAttemptAt := 0 }
        [(TransportOutcome.transportFailed "503", 10, 0)] =
      Except.error EngineError.storeUnavailable :=
  ⟨(error_propagation_asymmetric { base := 2, cap := 100, maxAttempts := 4 }
      { jobs := [], nextId := 0, auditEvents := [] } 0 "Gmail" "email" ""
      { id := 0, policyId := 0, platform := "Gmail", method := "email",
        renderedPayload := "", idempotencyKey := "", status := JobStatus.pending,
        attemptCount := 0, lastError := "", nextAttemptAt := 0 }
      [(TransportOutcome.transportFailed "503", 10, 0),
       (TransportOutcome.transportTimedOut, 20, 0)]).2.1,
   (error_propagation_asymmetric { base := 2, cap := 100, maxAttempts := 4 }
      { jobs := [], nextId := 0, auditEvents := [] } 0 "Gmail" "email" ""
      { id := 0, policyId := 0, platform := "Gmail", method := "email",
        renderedPayload := "", idempotencyKey := "", status := JobStatus.pending,
        attemptCount := 0, lastError := "", nextAttemptAt := 0 }
      [(TransportOutcome.transportFailed "503", 10, 0)]).2.2.2.2
      (by simp)⟩

/-- C4: rendering is deterministic and pure - the generated notification
depends only on the action type, instructions and conditions of the policy
and the platform name, account identifier and asset type of the asset (so
two calls with identical arguments are byte-identical and no hidden state
is read), and policies agreeing on those inputs and on `policy_id` get
identical idempotency keys. -/
theorem render_deterministic_pure (p₁ p₂ : Policy) (a₁ a₂ : MockAsset)
    (hat : p₁.actionType = p₂.actionType)
    (hsi : p₁.specificInstructions = p₂.specificInstructions)
    (hcond : p₁.conditions = p₂.conditions)
    (hpn : a₁.platformName = a₂.platformName)
    (hai : a₁.accountIdentifier = a₂.accountIdentifier)
    (hty : a₁.assetType = a₂.assetType) :
    generateMockNotification p₁ a₁ = generateMockNotification p₂ a₂ ∧
    (p₁.id = p₂.id → ∀ method,
      renderIdempotencyKey p₁ a₁ method = renderIdempotencyKey p₂ a₂ method) := by
  have hgen : generateMockNotification p₁ a₁ = generateMockNotification p₂ a₂ := by
    rw [generateMockNotification, generateMockNotification,
      hat, hsi, hcond, hpn, hai, hty]
  refine ⟨hgen, ?_⟩
  intro hid method
  rw [renderIdempotencyKey, renderIdempotencyKey, hgen, hid, hpn]

/-- Witness for C4: two policy/asset pairs differing only in hidden fields
(policy text, priority, creation time, asset ids) render byte-identical
notifications and share the idempotency key. -/
theorem render_deterministic_witness :
    generateMockNotification
        { id := 7, assetId := 3, actionType := "lock",
          naturalLanguagePolicy := "please lock it", specificInstructions := "",
          conditions := "", priority := 1, platformName := "Chase Bank",
          assetType := "bank", accountIdentifier := "****1234", status := "active",
          createdAt := "2024-01-01" }
        { id := 3, platformName := "Chase Bank", assetType := "bank",
          accountIdentifier := "****1234" } =
      generateMockNotification
        { id := 7, assetId := 3, actionType := "lock",
          naturalLanguagePolicy := "different words, same action",
          specificInstructions := "", conditions := "", priority := 2,
          platformName := "Chase Bank", assetType := "bank",
          accountIdentifier := "****1234", status := "active",
          createdAt := "2025-06-06" }
        { id := 99, platformName := "Chase Bank", assetType := "bank",
          accountIdentifier := "****1234" } ∧
    renderIdempotencyKey
        { id := 7, assetId := 3, actionType := "lock",
          naturalLanguagePolicy := "please lock it", specificInstructions := "",
          conditions := "", priority := 1, platformName := "Chase Bank",
          assetType := "bank", accountIdentifier := "****1234", status := "active",
          createdAt := "2024-01-01" }
        { id := 3, platformName := "Chase Bank", assetType := "bank",
          accountIdentifier := "****1234" } "email" =
      renderIdempotencyKey
        { id := 7, assetId := 3, actionType := "lock",
          naturalLanguagePolicy := "different words, same action",
          specificInstructions := "", conditions := "", priority := 2,
          platformName := "Chase Bank", assetType := "bank",
          accountIdentifier := "****1234", status := "active",
          createdAt := "2025-06-06" }
        { id := 99, platformName := "Chase Bank", assetType := "bank",
          accountIdentifier := "****1234" } "email" :=
  ⟨(render_deterministic_pure _ _ _ _ rfl rfl rfl rfl rfl rfl).1,
   (render_deterministic_pure _ _ _ _ rfl rfl rfl rfl rfl rfl).2 rfl "email"⟩

/-- C5: rendering/validation batch-reports: when every required field is
present and non-empty, `render` succeeds; otherwise it fails with the
`MissingRequiredField` list holding exactly the absent required fields -
all of them, not just the first; and the frontend `validatePolicy` likewise
reports each failing check independently of the other. -/
theorem render_reports_all_missing_fields (required : List String)
    (parts : List TemplatePart) (ctx : List (String × String))
    (form : NewPolicyForm) :
    (missingFields required ctx = [] →
      renderTemplate required parts ctx = Except.ok (renderParts parts ctx)) ∧
    (missingFields required ctx ≠ [] →
      renderTemplate required parts ctx = Except.error (missingFields required ctx)) ∧
    (∀ f, f ∈ missingFields required ctx ↔ f ∈ required ∧ lookupCtx ctx f = "") ∧
    ("Please select an asset" ∈ validatePolicy form ↔ form.assetId = "") ∧
    ("Please provide a policy description" ∈ validatePolicy form ↔
      jsTrim form.naturalLanguagePolicy = "") := by
  refine ⟨?_, ?_, ?_, ?_, ?_⟩
  · intro h
    rw [renderTemplate, if_pos h]
  · intro h
    rw [renderTemplate, if_neg h]
  · intro f
    simp [missingFields, List.mem_filter]
  · rw [validatePolicy]
    by_cases h1 : form.assetId = "" <;>
      by_cases h2 : jsTrim form.naturalLanguagePolicy = "" <;>
      simp [h1, h2]
  · rw [validatePolicy]
    by_cases h1 : form.assetId = "" <;>
      by_cases h2 : jsTrim form.naturalLanguagePolicy = "" <;>
      simp [h1, h2]

/-- Witness for C5 (Scenario B): with required fields `full_name,
date_of_death, account_identifier`, the full context renders successfully
and the context missing `date_of_death` fails listing exactly
`[date_of_death]`; a form failing both frontend checks reports both. -/
theorem render_missing_scenario_b :
    renderTemplate ["full_name", "date_of_death", "account_identifier"]
        [TemplatePart.lit "Account ", TemplatePart.field "account_identifier",
         TemplatePart.lit " of ", TemplatePart.field "full_name",
         TemplatePart.lit ", deceased ", TemplatePart.field "date_of_death"]
        [("full_name", "John Doe"), ("date_of_death", "2024-01-15"),
         ("account_identifier", "****1234")] =
      Except.ok (renderParts
        [TemplatePart.lit "Account ", TemplatePart.field "account_identifier",
         TemplatePart.lit " of ", TemplatePart.field "full_name",
         TemplatePart.lit ", deceased ", TemplatePart.field "date_of_death"]
        [("full_name", "John Doe"), ("date_of_death", "2024-01-15"),
         ("account_identifier", "****1234")]) ∧
    renderTemplate ["full_name", "date_of_death", "account_identifier"]
        [TemplatePart.lit "Account ", TemplatePart.field "account_identifier",
         TemplatePart.lit " of ", TemplatePart.field "full_name",
         TemplatePart.lit ", deceased ", TemplatePart.field "date_of_death"]
        [("full_name", "John Doe"), ("account_identifier", "****1234")] =
      Except.error (missingFields ["full_name", "date_of_death", "account_identifier"]
        [("full_name", "John Doe"), ("account_identifier", "****1234")]) ∧
    missingFields ["full_name", "date_of_death", "account_identifier"]
        [("full_name", "John Doe"), ("account_identifier", "****1234")] =
      ["date_of_death"] ∧
    validatePolicy
        { assetId := "",
          actionType := "delete",
          naturalLanguagePolicy := "  ",
          specificInstructions := "",
          conditions := "",
          priority := 1 } =
      ["Please select an asset", "Please provide a policy description"] :=
  ⟨(render_reports_all_missing_fields _ _ _
      { assetId := "",
        actionType := "delete",
        naturalLanguagePolicy := "  ",
        specificInstructions := "",
        conditions := "",
        priority := 1 }).1 (by decide),
   (render_reports_all_missing_fields _ _
      [("full_name", "John Doe"), ("account_identifier", "****1234")]
      { assetId := "",
        actionType := "delete",
        naturalLanguagePolicy := "  ",
        specificInstructions := "",
        conditions := "",
        priority := 1 }).2.1 (by decide),
   by decide,
   by decide⟩

/-- C8: the preview path is total only under an existence precondition -
when some registered asset matches the `assetId` of the policy the preview
succeeds with the generated notification, and when no registered asset
matches, `generateMockNotification` dereferences `undefined` and the
TypeError branch is reached. -/
theorem preview_requires_registered_asset (assets : List MockAsset) (policy : Policy) :
    ((∃ a, a ∈ assets ∧ a.id = policy.assetId) →
      ∃ a, findAsset assets policy.assetId = some a ∧
        previewPolicyExecution assets policy =
          Except.ok
            { previewPolicy :=
                some (policy, some a, generateMockNotification policy a),
              showPreview := true }) ∧
    ((∀ a, a ∈ assets → a.id ≠ policy.assetId) →
      previewPolicyExecution assets policy =
        Except.error (JsError.typeError "Cannot read properties of undefined")) := by
  constructor
  · rintro ⟨a, ha, hid⟩
    cases hfa : findAsset assets policy.assetId with
    | none =>
      rw [findAsset, List.find?_eq_none] at hfa
      exact absurd (by simp [hid] : (fun x => x.id == policy.assetId) a = true)
        (by simpa using hfa a ha)
    | some b =>
      refine ⟨b, rfl, ?_⟩
      rw [previewPolicyExecution]
      rw [hfa]
      rfl
  · intro h
    have hfa : findAsset assets policy.assetId = none := by
      rw [findAsset, List.find?_eq_none]
      intro a ha
      simp [h a ha]
    rw [previewPolicyExecution, hfa]
    rfl

/-- Witness for C8: with the built-in assets of the component, a policy for
asset 3 (Chase Bank) previews successfully, while a policy for the
unregistered asset 4 reaches the TypeError branch. -/
theorem preview_asset_witness :
    (∃ a, findAsset defaultAssets 3 = some a ∧
      previewPolicyExecution defaultAssets
          { id := 100, assetId := 3, actionType := "lock",
            naturalLanguagePolicy := "lock it", specificInstructions := "",
            conditions := "", priority := 1, platformName := "Chase Bank",
            assetType := "bank", accountIdentifier := "****1234",
            status := "active", createdAt := "2024-01-01" } =
        Except.ok
          { previewPolicy :=
              some ({ id := 100, assetId := 3, actionType := "lock",
                      naturalLanguagePolicy := "lock it", specificInstructions := "",
                      conditions := "", priority := 1, platformName := "Chase Bank",
                      assetType := "bank", accountIdentifier := "****1234",
                      status := "active", createdAt := "2024-01-01" }, some a,
                generateMockNotification
                  { id := 100, assetId := 3, actionType := "lock",
                    naturalLanguagePolicy := "lock it", specificInstructions := "",
                    conditions := "", priority := 1, platformName := "Chase Bank",
                    assetType := "bank", accountIdentifier := "****1234",
                    status := "active", createdAt := "2024-01-01" } a),
            showPreview := true }) ∧
    previewPolicyExecution defaultAssets
        { id := 101, assetId := 4, actionType := "delete",
          naturalLanguagePolicy := "remove", specificInstructions := "",
          conditions := "", priority := 1, platformName := "",
          assetType := "", accountIdentifier := "", status := "active",
          createdAt := "2024-01-01" } =
      Except.error (JsError.typeError "Cannot read properties of undefined") :=
  ⟨(preview_requires_registered_asset defaultAssets
      { id := 100, assetId := 3, actionType := "lock",
        naturalLanguagePolicy := "lock it", specificInstructions := "",
        conditions := "", priority := 1, platformName := "Chase Bank",
        assetType := "bank", accountIdentifier := "****1234",
        status := "active", createdAt := "2024-01-01" }).1
    ⟨{ id := 3, platformName := "Chase Bank", assetType := "bank",
       accountIdentifier := "****1234" }, by decide, rfl⟩,
   (preview_requires_registered_asset defaultAssets
      { id := 101, assetId := 4, actionType := "delete",
        naturalLanguagePolicy := "remove", specificInstructions := "",
        conditions := "", priority := 1, platformName := "",
        assetType := "", accountIdentifier := "", status := "active",
        createdAt := "2024-01-01" }).2 (by decide)⟩

/-- C9: every failure of an API request surfaces as a typed `ApiError`:
a non-ok HTTP response throws an `ApiError` carrying exactly the response
status and the parsed body, a fetch rejection throws an `ApiError` with
status 0 and the original error attached, and an ok response returns the
parsed body - no raw transport exception ever escapes. -/
theorem api_request_wraps_failures :
    (∀ msg, apiRequest (FetchOutcome.networkFailure msg) =
      ReqOutcome.apiFailure (if msg ≠ "" then msg else "Network error occurred") 0
        none (some msg)) ∧
    (∀ status jsonContent jsonData textBody,
      apiRequest (FetchOutcome.httpResponse false status jsonContent jsonData textBody) =
        ReqOutcome.apiFailure
          (apiErrorMessage
            (if jsonContent then jsonData
             else { errorField := "", messageField := textBody }) status)
          status
          (some (if jsonContent then jsonData
                 else { errorField := "", messageField := textBody })) none) ∧
    (∀ status jsonContent jsonData textBody,
      apiRequest (FetchOutcome.httpResponse true status jsonContent jsonData textBody) =
        ReqOutcome.success
          (if jsonContent then jsonData
           else { errorField := "", messageField := textBody })) ∧
    (∀ o, (∃ d, apiRequest o = ReqOutcome.success d) ∨
      ∃ m s d oe, apiRequest o = ReqOutcome.apiFailure m s d oe) := by
  refine ⟨fun msg => rfl, fun s jc jd tb => rfl, fun s jc jd tb => rfl, ?_⟩
  intro o
  cases o with
  | networkFailure msg => exact Or.inr ⟨_, _, _, _, rfl⟩
  | httpResponse ok status jc jd tb =>
    cases ok with
    | true => exact Or.inl ⟨_, rfl⟩
    | false => exact Or.inr ⟨_, _, _, _, rfl⟩

/-- C10: admin authentication is an exact match against fixed constants -
`handleSubmit` stores the admin session and navigates to /admin exactly
when the triple is ("admin", "admin123", "GHOST_ADMIN_2024"); any other
triple produces the error banner, writes nothing to storage and does not
navigate. -/
theorem admin_login_exact_credentials (u p k : String) :
    ((AdminEffect.setItem "adminAuthenticated" "true" ∈ adminHandleSubmit u p k ∧
      AdminEffect.navigate "/admin" ∈ adminHandleSubmit u p k) ↔
      (u = "admin" ∧ p = "admin123" ∧ k = "GHOST_ADMIN_2024")) ∧
    (¬ (u = "admin" ∧ p = "admin123" ∧ k = "GHOST_ADMIN_2024") →
      adminHandleSubmit u p k =
        [AdminEffect.setLoading true, AdminEffect.setError "",
         AdminEffect.setError adminErrorText, AdminEffect.setLoading false] ∧
      (∀ key v, AdminEffect.setItem key v ∉ adminHandleSubmit u p k) ∧
      (∀ path, AdminEffect.navigate path ∉ adminHandleSubmit u p k)) := by
  by_cases h : u = "admin" ∧ p = "admin123" ∧ k = "GHOST_ADMIN_2024"
  · refine ⟨⟨fun _ => h, fun _ => ?_⟩, fun hc => absurd h hc⟩
    rw [adminHandleSubmit, if_pos h]
    simp
  · refine ⟨⟨fun hm => ?_, fun hc => absurd hc h⟩, fun _ => ?_⟩
    · rw [adminHandleSubmit, if_neg h] at hm
      simp [adminErrorText] at hm
    · rw [adminHandleSubmit, if_neg h]
      refine ⟨rfl, ?_, ?_⟩
      · intro key v hm
        simp [adminErrorText] at hm
      · intro path hm
        simp [adminErrorText] at hm

/-- Witness for C10: the exact demo credentials grant access, and a wrong
password yields only the error banner with no storage write and no
navigation. -/
theorem admin_login_witness :
    (AdminEffect.setItem "adminAuthenticated" "true" ∈
        adminHandleSubmit "admin" "admin123" "GHOST_ADMIN_2024" ∧
      AdminEffect.navigate "/admin" ∈
        adminHandleSubmit "admin" "admin123" "GHOST_ADMIN_2024") ∧
    adminHandleSubmit "admin" "wrong" "GHOST_ADMIN_2024" =
      [AdminEffect.setLoading true, AdminEffect.setError "",
       AdminEffect.setError adminErrorText, AdminEffect.setLoading false] :=
  ⟨(admin_login_exact_credentials "admin" "admin123" "GHOST_ADMIN_2024").1.mpr
      ⟨rfl, rfl, rfl⟩,
   ((admin_login_exact_credentials "admin" "wrong" "GHOST_ADMIN_2024").2
      (by intro hc; exact absurd hc.2.1 (by decide))).1⟩
